import Mathlib

/-!
Verification development for the Health-System repository (`app.py`).

The definitions below are a shallow embedding of the Flask application's
data model (SQLAlchemy models `User`, `Patient`, `Medicine`, `Consultation`,
`Prescription`), its database bootstrap (`initialize_database` /
`seed_initial_data` / `ensure_initialized`), its request guards
(`login_required`, `role_required`), and the API handlers the claims refer
to (`api_login`, `get_inventory`, `dispense_prescription`,
`add_patient`, `update_patient`, `add_consultation`, `update_consultation`).

Modelling conventions:
* the SQLite store is a record of five tables (lists of rows);
* SQLAlchemy's autoincrement primary keys are modelled by `nextId`
  (one more than the maximum id present in the table);
* Python's process-global, seed-dependent `hash` builtin, the current
  date `date.today()` and calendar subtraction `today - timedelta(days=k)`
  are abstracted into an environment record `Env`; no claim depends on
  their concrete values;
* a raised-and-caught exception during seeding is modelled by a failure
  injection parameter `failAt` that names the batch whose
  `db.session.commit()` raises; the `except` clause's
  `db.session.rollback()` discards exactly that batch's pending rows;
* Flask responses are modelled by the `Response` type; an uncaught
  `werkzeug` `BuildError` from `url_for` on an unknown endpoint name is
  modelled as `Response.serverError`.
-/

namespace HealthSys

/-- Calendar date as stored in the `db.Column(db.Date)` fields. -/
structure HDate where
  year : Nat
  month : Nat
  day : Nat
deriving DecidableEq

/-- Strict calendar order on dates (lexicographic year, month, day). -/
def HDate.beforeDate (a b : HDate) : Bool :=
  (a.year < b.year) || (a.year == b.year && a.month < b.month) ||
    (a.year == b.year && a.month == b.month && a.day < b.day)

/-- Row of the `user` table (`class User(db.Model)` in `app.py`). -/
structure User where
  id : Nat
  name : String
  email : String
  password_hash : String
  role : String
deriving DecidableEq

/-- Row of the `patient` table (`class Patient(db.Model)` in `app.py`). -/
structure Patient where
  id : Nat
  qid : String
  name : String
  contact_number : Option String
  last_visit : Option HDate
  date_of_birth : Option HDate
  address : Option String
deriving DecidableEq

/-- Row of the `medicine` table (`class Medicine(db.Model)` in `app.py`).
Note that `status` is a stored column (`db.Column(db.String(50))`), not a
computed property. -/
structure Medicine where
  id : Nat
  name : String
  stock_level : Int
  location : Option String
  expiry_date : Option HDate
  status : Option String
deriving DecidableEq

/-- Row of the `consultation` table (`class Consultation(db.Model)`). -/
structure Consultation where
  id : Nat
  consultation_date : HDate
  diagnosis : Option String
  notes : Option String
  patient_id : Nat
  doctor_id : Nat
deriving DecidableEq

/-- Row of the `prescription` table (`class Prescription(db.Model)`). -/
structure Prescription where
  id : Nat
  medication : String
  dosage : String
  instructions : Option String
  dispensed : Bool
  consultation_id : Nat
  medicine_id : Option Nat
deriving DecidableEq

/-- The SQLite database `healthsys.db`: one list of rows per table. -/
structure Store where
  users : List User
  patients : List Patient
  medicines : List Medicine
  consultations : List Consultation
  prescriptions : List Prescription
deriving DecidableEq

/-- A fresh database with empty tables (the state after `db.create_all()`
on a new file). -/
def emptyStore : Store :=
  { users := [], patients := [], medicines := [], consultations := [],
    prescriptions := [] }

/-- The Flask session cookie: the keys `user_id`, `user_name`, `user_role`
that `api_login` sets, each absent (`none`) before login. -/
structure Session where
  user_id : Option Nat
  user_name : Option String
  user_role : Option String
deriving DecidableEq

/-- A session with none of the keys set: an unauthenticated caller. -/
def emptySession : Session :=
  { user_id := none, user_name := none, user_role := none }

/-- Environment of ambient effects used by `app.py`: Python's builtin
`hash` on strings (process-seeded, abstract here), `date.today()`, and
`today - timedelta(days=k)` (abstract calendar subtraction; no claim
depends on its value). -/
structure Env where
  pyHash : String → Int
  today : HDate
  minusDays : HDate → Nat → HDate

/-- `User.set_password`: `self.password_hash = str(hash(password + "demo_salt"))`. -/
def set_password (env : Env) (u : User) (password : String) : User :=
  { u with password_hash := toString (env.pyHash (password ++ "demo_salt")) }

/-- `User.check_password`: `self.password_hash == str(hash(password + "demo_salt"))`. -/
def check_password (env : Env) (u : User) (password : String) : Bool :=
  u.password_hash == toString (env.pyHash (password ++ "demo_salt"))

/-- The HTTP-level outcomes the embedded handlers can produce. -/
inductive Response where
  | redirect (location : String)
  | serverError
  | json (message : String) (status : Nat)
deriving DecidableEq

/-- The Flask endpoint names registered in `app.py`: one per decorated
view function, named after the function (Flask's default). There is no
view function named `login`. -/
def endpoints : List String :=
  ["api_login", "api_logout", "index", "dashboard_data", "get_users",
   "get_doctors", "get_patients", "get_patient",
   "get_patient_consultations", "add_patient", "update_patient",
   "get_consultations", "get_consultation", "add_consultation",
   "update_consultation", "get_inventory", "get_pending_prescriptions",
   "dispense_prescription"]

/-- `flask.url_for`: returns a URL for a registered endpoint name and
raises `werkzeug.routing.BuildError` (modelled as `none`) for an unknown
one. The URL text itself is not observed by any claim, so the endpoint
name stands in for the route path. -/
def url_for (endpoint : String) : Option String :=
  if endpoints.contains endpoint then some endpoint else none

/-- The `login_required` decorator: redirect to `url_for('login')` when
`'user_id' not in session`, otherwise run the wrapped view. An uncaught
`BuildError` from `url_for` surfaces as a server error. -/
def login_required (f : Session → Store → Response × Store)
    (sess : Session) (s : Store) : Response × Store :=
  match sess.user_id with
  | none =>
    match url_for "login" with
    | some loc => (Response.redirect loc, s)
    | none => (Response.serverError, s)
  | some _ => f sess s

/-- The `role_required(required_role)` decorator: redirect when
unauthenticated, look the user up by the session id, and return the 403
`Unauthorized access` JSON unless the user exists and its role equals
`required_role` exactly. -/
def role_required (required_role : String)
    (f : Session → Store → Response × Store)
    (sess : Session) (s : Store) : Response × Store :=
  match sess.user_id with
  | none =>
    match url_for "login" with
    | some loc => (Response.redirect loc, s)
    | none => (Response.serverError, s)
  | some uid =>
    match s.users.find? (fun u => u.id == uid) with
    | none => (Response.json "Unauthorized access" 403, s)
    | some u =>
      if u.role == required_role then f sess s
      else (Response.json "Unauthorized access" 403, s)

/-- `POST /api/login` (`api_login`): look the user up by email, check the
password, and on success store id, name and role in the session. -/
def api_login (env : Env) (s : Store) (sess : Session)
    (email password : String) : Response × Session :=
  match s.users.find? (fun u => u.email == email) with
  | some user =>
    if check_password env user password then
      (Response.json "Login successful" 200,
       { user_id := some user.id, user_name := some user.name,
         user_role := some user.role })
    else (Response.json "Invalid email or password" 401, sess)
  | none => (Response.json "Invalid email or password" 401, sess)

/-- One element of the JSON array returned by `GET /api/pharmacy/inventory`. -/
structure InventoryEntry where
  id : Nat
  name : String
  stock_level : Int
  location : Option String
  expiry_date : Option HDate
  status : Option String
deriving DecidableEq

/-- The body of `get_inventory`: `Medicine.query.all()` serialised field by
field; the reported `status` is the stored column `item.status`. -/
def get_inventory (s : Store) : List InventoryEntry :=
  s.medicines.map (fun item =>
    { id := item.id, name := item.name, stock_level := item.stock_level,
      location := item.location, expiry_date := item.expiry_date,
      status := item.status })

/-- Modelled from the spec: the derived Medicine status the specification
describes (expiry before today takes precedence as `Expired`, then the
fixed low-stock threshold `stock_level` at most 10 gives `Low Stock`,
otherwise `In Stock`). This definition follows the spec's words, for
comparison with `get_inventory`; `app.py` contains no such computation. -/
def specDerivedStatus (today : HDate) (stock_level : Int)
    (expiry : Option HDate) : String :=
  match expiry with
  | some e =>
    if HDate.beforeDate e today then "Expired"
    else if stock_level ≤ 10 then "Low Stock" else "In Stock"
  | none => if stock_level ≤ 10 then "Low Stock" else "In Stock"

/-- SQLAlchemy/SQLite autoincrement primary key assignment: one more than
the largest id already present in the table. -/
def nextId (ids : List Nat) : Nat :=
  ids.foldr max 0 + 1

/-- `Prescription.query.filter_by(id=...)`-style primary-key lookup. -/
def findPrescription (s : Store) (pid : Nat) : Option Prescription :=
  s.prescriptions.find? (fun p => p.id == pid)

/-- The body of `dispense_prescription`: 404 when the id does not resolve,
400 `Prescription already dispensed` with no mutation when the flag is
already set, otherwise set `dispensed = True` on that row and commit. -/
def dispenseHandler (prescription_id : Nat) (s : Store) : Response × Store :=
  match findPrescription s prescription_id with
  | none => (Response.json "Not found" 404, s)
  | some p =>
    if p.dispensed then (Response.json "Prescription already dispensed" 400, s)
    else
      (Response.json "Prescription dispensed successfully" 200,
       { s with prescriptions := s.prescriptions.map (fun q =>
           if q.id == prescription_id then { q with dispensed := true } else q) })

/-- `POST /api/pharmacy/prescriptions/<id>/dispense`: the handler together
with its `@login_required` guard (the only guard on this route). -/
def dispense_prescription (sess : Session) (prescription_id : Nat)
    (s : Store) : Response × Store :=
  login_required (fun _ st => dispenseHandler prescription_id st) sess s

/-- JSON payload of `POST /api/patients`. -/
structure PatientInput where
  qid : String
  name : String
  contact_number : Option String
  last_visit : Option HDate
  date_of_birth : Option HDate
  address : Option String
deriving DecidableEq

/-- `POST /api/patients` (`add_patient`): insert a new Patient row. -/
def add_patient (d : PatientInput) (s : Store) : Store :=
  { s with patients := s.patients ++
      [{ id := nextId (s.patients.map (fun p => p.id)), qid := d.qid,
         name := d.name, contact_number := d.contact_number,
         last_visit := d.last_visit, date_of_birth := d.date_of_birth,
         address := d.address }] }

/-- JSON payload of `PUT /api/patients/<id>`: each field optional,
`data.get(k, current)` keeps the current value when absent. -/
structure PatientUpdate where
  qid : Option String
  name : Option String
  contact_number : Option String
  last_visit : Option HDate
  date_of_birth : Option HDate
  address : Option String
deriving DecidableEq

/-- `PUT /api/patients/<id>` (`update_patient`); an id that does not
resolve is a 404 with no mutation, so the map is the identity there. -/
def update_patient (patient_id : Nat) (d : PatientUpdate) (s : Store) : Store :=
  { s with patients := s.patients.map (fun p =>
      if p.id == patient_id then
        { p with
          qid := d.qid.getD p.qid,
          name := d.name.getD p.name,
          contact_number := (d.contact_number.map some).getD p.contact_number,
          last_visit := (d.last_visit.map some).getD p.last_visit,
          date_of_birth := (d.date_of_birth.map some).getD p.date_of_birth,
          address := (d.address.map some).getD p.address }
      else p) }

/-- One prescription object inside the `POST /api/consultations` payload. -/
structure PrescriptionInput where
  medication : String
  dosage : String
  instructions : String
deriving DecidableEq

/-- The prescription loop of `add_consultation`: each payload entry becomes
a new Prescription row for the flushed consultation id, with the column
default `dispensed = False` and no medicine link. -/
def addPrescriptionRows (cid : Nat) (rows : List PrescriptionInput)
    (s : Store) : Store :=
  rows.foldl (fun acc r =>
    { acc with prescriptions := acc.prescriptions ++
        [{ id := nextId (acc.prescriptions.map (fun p => p.id)),
           medication := r.medication, dosage := r.dosage,
           instructions := some r.instructions, dispensed := false,
           consultation_id := cid, medicine_id := none }] }) s

/-- JSON payload of `POST /api/consultations`. -/
structure ConsultationInput where
  patient_id : Nat
  doctor_id : Nat
  consultation_date : HDate
  diagnosis : Option String
  notes : Option String
  prescriptions : List PrescriptionInput
deriving DecidableEq

/-- `POST /api/consultations` (`add_consultation`): insert the
Consultation, flush to obtain its id, then insert its prescriptions. -/
def add_consultation (d : ConsultationInput) (s : Store) : Store :=
  let cid := nextId (s.consultations.map (fun c => c.id))
  let s1 := { s with consultations := s.consultations ++
      [{ id := cid, consultation_date := d.consultation_date,
         diagnosis := d.diagnosis, notes := d.notes,
         patient_id := d.patient_id, doctor_id := d.doctor_id }] }
  addPrescriptionRows cid d.prescriptions s1

/-- JSON payload of `PUT /api/consultations/<id>`. -/
structure ConsultationUpdate where
  patient_id : Option Nat
  doctor_id : Option Nat
  consultation_date : Option HDate
  diagnosis : Option String
  notes : Option String
deriving DecidableEq

/-- `PUT /api/consultations/<id>` (`update_consultation`): update the
scalar fields only; prescriptions are explicitly not touched. -/
def update_consultation (consultation_id : Nat) (d : ConsultationUpdate)
    (s : Store) : Store :=
  { s with consultations := s.consultations.map (fun c =>
      if c.id == consultation_id then
        { c with
          patient_id := d.patient_id.getD c.patient_id,
          doctor_id := d.doctor_id.getD c.doctor_id,
          consultation_date := d.consultation_date.getD c.consultation_date,
          diagnosis := (d.diagnosis.map some).getD c.diagnosis,
          notes := (d.notes.map some).getD c.notes }
      else c) }

/-- The five `db.session.commit()` batches of `seed_initial_data`, in
program order; a raised exception is named by the batch it interrupts. -/
inductive SeedStage where
  | usersStage
  | patientsStage
  | medicinesStage
  | consultationsStage
  | prescriptionsStage
deriving DecidableEq

/-- Number of seed batches that commit before the named failure point
(`none` means no batch fails, so all five commit). -/
def stageRank : Option SeedStage → Nat
  | none => 5
  | some SeedStage.usersStage => 0
  | some SeedStage.patientsStage => 1
  | some SeedStage.medicinesStage => 2
  | some SeedStage.consultationsStage => 3
  | some SeedStage.prescriptionsStage => 4

/-- The five User rows `u1`–`u5` of `seed_initial_data`, each with
`set_password('password')`, starting at autoincrement id `ub`. -/
def seedUserRows (env : Env) (ub : Nat) : List User :=
  [set_password env
    { id := ub, name := "Dr. Aisha Al-Emadi",
      email := "a.emadi@healthsys.demo", password_hash := "",
      role := "Doctor" } "password",
   set_password env
    { id := ub + 1, name := "Nadia Hassan",
      email := "n.hassan@healthsys.demo", password_hash := "",
      role := "Nurse" } "password",
   set_password env
    { id := ub + 2, name := "Dr. Omar Khalid",
      email := "o.khalid@healthsys.demo", password_hash := "",
      role := "Doctor" } "password",
   set_password env
    { id := ub + 3, name := "Layla Mahmoud",
      email := "l.mahmoud@healthsys.demo", password_hash := "",
      role := "Pharmacist" } "password",
   set_password env
    { id := ub + 4, name := "Admin User",
      email := "admin@healthsys.demo", password_hash := "",
      role := "Admin" } "password"]

/-- The four Patient rows `p1`–`p4` of `seed_initial_data`. -/
def seedPatientRows (pb : Nat) : List Patient :=
  [{ id := pb, qid := "29850615001", name := "Fatima Nasser",
     contact_number := some "55123456", last_visit := some ⟨2025, 7, 20⟩,
     date_of_birth := some ⟨1985, 6, 15⟩, address := some "Doha, Qatar" },
   { id := pb + 1, qid := "29901103002", name := "Mohammed Saleh",
     contact_number := some "55234567", last_visit := some ⟨2025, 7, 18⟩,
     date_of_birth := some ⟨1990, 11, 3⟩, address := some "Al Rayyan, Qatar" },
   { id := pb + 2, qid := "29780228003", name := "Yousef Ali",
     contact_number := some "55345678", last_visit := some ⟨2025, 7, 10⟩,
     date_of_birth := some ⟨1978, 2, 28⟩, address := some "Al Wakrah, Qatar" },
   { id := pb + 3, qid := "30010812004", name := "Sana Kamal",
     contact_number := some "55456789", last_visit := some ⟨2025, 7, 5⟩,
     date_of_birth := some ⟨2001, 8, 12⟩, address := some "Umm Salal, Qatar" }]

/-- The four Medicine rows `m1`–`m4` of `seed_initial_data`; note the
stored `status` strings are seeded verbatim. -/
def seedMedicineRows (mb : Nat) : List Medicine :=
  [{ id := mb, name := "Metformin 500mg", stock_level := 150,
     location := some "Doha Main Clinic", expiry_date := some ⟨2026, 12, 31⟩,
     status := some "In Stock" },
   { id := mb + 1, name := "Amoxicillin 250mg", stock_level := 45,
     location := some "Doha Main Clinic", expiry_date := some ⟨2026, 8, 31⟩,
     status := some "Low Stock" },
   { id := mb + 2, name := "Panadol 500mg", stock_level := 250,
     location := some "Doha Main Clinic", expiry_date := some ⟨2027, 1, 31⟩,
     status := some "In Stock" },
   { id := mb + 3, name := "Aspirin 75mg", stock_level := 15,
     location := some "Doha Main Clinic", expiry_date := some ⟨2026, 2, 28⟩,
     status := some "Reorder" }]

/-- The three Consultation rows `c1`–`c3`: dated relative to
`date.today()` and referencing `p1.id`, `p2.id`, `p3.id` and the doctor
ids `u1.id`, `u1.id`, `u3.id` of the rows committed just before. -/
def seedConsultationRows (env : Env) (cb pb ub : Nat) : List Consultation :=
  [{ id := cb, consultation_date := env.minusDays env.today 1,
     diagnosis := some "Hypertension",
     notes := some "Patient reports occasional headaches.",
     patient_id := pb, doctor_id := ub },
   { id := cb + 1, consultation_date := env.minusDays env.today 3,
     diagnosis := some "Type 2 Diabetes",
     notes := some "HbA1c checked, results pending.",
     patient_id := pb + 1, doctor_id := ub },
   { id := cb + 2, consultation_date := env.minusDays env.today 10,
     diagnosis := some "Migraine",
     notes := some "Prescribed new medication for prevention.",
     patient_id := pb + 2, doctor_id := ub + 2 }]

/-- The three Prescription rows `pr1`–`pr3`, referencing `c1.id`–`c3.id`
and (for `pr2`) `m1.id`; `dispensed` takes its column default `False`. -/
def seedPrescriptionRows (rb cb mb : Nat) : List Prescription :=
  [{ id := rb, medication := "Lisinopril 10mg", dosage := "1 tablet daily",
     instructions := some "Take in the morning.", dispensed := false,
     consultation_id := cb, medicine_id := none },
   { id := rb + 1, medication := "Metformin 500mg",
     dosage := "1 tablet twice daily",
     instructions := some "Take with meals.", dispensed := false,
     consultation_id := cb + 1, medicine_id := some mb },
   { id := rb + 2, medication := "Propranolol 40mg",
     dosage := "1 tablet twice daily",
     instructions := some "Take as needed for migraine.", dispensed := false,
     consultation_id := cb + 2, medicine_id := none }]

/-- `seed_initial_data`: when `User.query.first() is None`, insert the five
fixed batches, committing after each; the `failAt` parameter injects the
`except Exception` path, whose `db.session.rollback()` discards exactly
the uncommitted batch while every batch committed before it persists.
When the user table is non-empty nothing is inserted. -/
def seed_initial_data (env : Env) (failAt : Option SeedStage)
    (s : Store) : Store :=
  if s.users.isEmpty then
    let ub := nextId (s.users.map (fun u => u.id))
    let pb := nextId (s.patients.map (fun p => p.id))
    let mb := nextId (s.medicines.map (fun m => m.id))
    let cb := nextId (s.consultations.map (fun c => c.id))
    let rb := nextId (s.prescriptions.map (fun p => p.id))
    let r := stageRank failAt
    { users := s.users ++ (if 0 < r then seedUserRows env ub else []),
      patients := s.patients ++ (if 1 < r then seedPatientRows pb else []),
      medicines := s.medicines ++ (if 2 < r then seedMedicineRows mb else []),
      consultations := s.consultations ++
        (if 3 < r then seedConsultationRows env cb pb ub else []),
      prescriptions := s.prescriptions ++
        (if 4 < r then seedPrescriptionRows rb cb mb else []) }
  else s

/-- Instrumentation of one `initialize_database` call: whether the call
acquired `_init_lock` and whether it ran the schema-create-and-seed
sequence (the body of `if not _is_initialized`). -/
structure InitTrace where
  acquired_lock : Bool
  ran_seed : Bool
deriving DecidableEq

/-- `initialize_database` with its trace. The source enters
`with _init_lock:` unconditionally, so the lock is acquired on every call;
the `_is_initialized` flag is checked once, inside the critical section,
and is set `True` after `seed_initial_data` returns — also when seeding
failed internally, because `seed_initial_data` swallows its exception.
The state is the pair (database, `_is_initialized`). -/
def init_database_trace (env : Env) (failAt : Option SeedStage)
    (st : Store × Bool) : (Store × Bool) × InitTrace :=
  if st.2 then (st, { acquired_lock := true, ran_seed := false })
  else ((seed_initial_data env failAt st.1, true),
        { acquired_lock := true, ran_seed := true })

/-- `initialize_database` (state part only). -/
def init_database (env : Env) (failAt : Option SeedStage)
    (st : Store × Bool) : Store × Bool :=
  (init_database_trace env failAt st).1

/-- `ensure_initialized`, the `@app.before_request` hook (the spec's
`ensure_ready()`): it simply calls `initialize_database`. -/
def ensure_ready (env : Env) (failAt : Option SeedStage)
    (st : Store × Bool) : Store × Bool :=
  init_database env failAt st

/-- `n` consecutive calls of `ensure_ready` starting from `st`. -/
def iterEnsure (env : Env) (failAt : Option SeedStage) :
    Nat → (Store × Bool) → Store × Bool
  | 0, st => st
  | n + 1, st => iterEnsure env failAt n (ensure_ready env failAt st)

/-- The fully seeded database: `seed_initial_data` on a fresh store. -/
def seededStore (env : Env) : Store :=
  seed_initial_data env none emptyStore

/-- Every store-mutating operation the application exposes (the write
handlers of `app.py`, plus the bootstrap); the read-only `GET` routes and
the session-only `api_login`/`api_logout` do not touch the store. -/
inductive AppOp where
  | addPatientOp (d : PatientInput)
  | updatePatientOp (patient_id : Nat) (d : PatientUpdate)
  | addConsultationOp (d : ConsultationInput)
  | updateConsultationOp (consultation_id : Nat) (d : ConsultationUpdate)
  | dispenseOp (prescription_id : Nat)
  | ensureReadyOp (env : Env) (failAt : Option SeedStage) (flag : Bool)

/-- The store transition of each application operation. -/
def applyOp : AppOp → Store → Store
  | AppOp.addPatientOp d, s => add_patient d s
  | AppOp.updatePatientOp pid d, s => update_patient pid d s
  | AppOp.addConsultationOp d, s => add_consultation d s
  | AppOp.updateConsultationOp cid d, s => update_consultation cid d s
  | AppOp.dispenseOp pid, s => (dispenseHandler pid s).2
  | AppOp.ensureReadyOp env failAt flag, s => (ensure_ready env failAt (s, flag)).1

/-!
Concurrency model for the initialization gate.

`initialize_database` is, per thread, the program

```
acquire _init_lock
if not _is_initialized:
    db.create_all(); seed_initial_data(); _is_initialized = True
release _init_lock
```

Each of `n` threads runs this program; `TPC` is a thread's program
counter. All accesses to the shared store and flag happen while holding
the lock, so the only scheduler-visible steps are: trying to acquire the
lock (a no-op while another thread holds it), checking the flag, running
the create-and-seed body, and releasing the lock. A schedule is an
arbitrary list of thread indices; each entry lets that thread take its
next step.
-/

/-- Program counter of one thread running `initialize_database`. -/
inductive TPC where
  | entry
  | locked
  | working
  | unlocking
  | finished
deriving DecidableEq

/-- Pointwise update of a thread's program counter. -/
def setPC {n : Nat} (pcs : Fin n → TPC) (i : Fin n) (v : TPC) : Fin n → TPC :=
  fun j => if j = i then v else pcs j

/-- Shared state of `n` threads concurrently inside
`initialize_database`: the database, the `_is_initialized` flag, the
holder of `_init_lock`, each thread's program counter, and an
instrumentation counter of how many create-and-seed bodies have run. -/
structure ConcState (n : Nat) where
  store : Store
  flag : Bool
  lockHolder : Option (Fin n)
  pcs : Fin n → TPC
  seedRuns : Nat

/-- One scheduler step of thread `i`. A thread at `entry` acquires the
free lock or stays blocked; at `locked` it reads `_is_initialized` and
either skips the body or enters it; at `working` it runs
`db.create_all()` plus `seed_initial_data()` and sets the flag; at
`unlocking` it releases the lock and returns. -/
def step (env : Env) {n : Nat} (g : ConcState n) (i : Fin n) : ConcState n :=
  match g.pcs i with
  | TPC.entry =>
    match g.lockHolder with
    | none => { g with lockHolder := some i, pcs := setPC g.pcs i TPC.locked }
    | some _ => g
  | TPC.locked =>
    if g.flag then { g with pcs := setPC g.pcs i TPC.unlocking }
    else { g with pcs := setPC g.pcs i TPC.working }
  | TPC.working =>
    { g with
      store := seed_initial_data env none g.store,
      flag := true,
      seedRuns := g.seedRuns + 1,
      pcs := setPC g.pcs i TPC.unlocking }
  | TPC.unlocking =>
    { g with lockHolder := none, pcs := setPC g.pcs i TPC.finished }
  | TPC.finished => g

/-- Run a schedule (list of thread indices) from a state. -/
def runSched (env : Env) {n : Nat} (g : ConcState n) : List (Fin n) → ConcState n
  | [] => g
  | i :: rest => runSched env (step env g i) rest

/-- Initial state of `n` first calls racing on an unseeded store. -/
def initConc (n : Nat) : ConcState n :=
  { store := emptyStore, flag := false, lockHolder := none,
    pcs := fun _ => TPC.entry, seedRuns := 0 }

/-- The inductive invariant of the concurrent initialization gate. -/
def ConcInv (env : Env) {n : Nat} (g : ConcState n) : Prop :=
  (g.flag = true → g.store = seededStore env ∧ g.seedRuns = 1)
  ∧ (g.flag = false → g.store = emptyStore ∧ g.seedRuns = 0)
  ∧ (∀ i, g.pcs i = TPC.working → g.flag = false)
  ∧ (∀ i, g.pcs i = TPC.locked ∨ g.pcs i = TPC.working ∨
      g.pcs i = TPC.unlocking → g.lockHolder = some i)
  ∧ (∀ i, g.pcs i = TPC.unlocking → g.flag = true)
  ∧ (∀ i, g.pcs i = TPC.finished → g.flag = true)

/-- A fixed sample environment used for concrete evaluations: a constant
hash, the date this development was written, and trivial calendar
subtraction (no claim depends on these values). -/
def env0 : Env :=
  { pyHash := fun _ => 0, today := ⟨2025, 10, 12⟩,
    minusDays := fun d _ => d }

/-- A session authenticated as the seeded Nurse user `u2` (id 2). -/
def nurseSession : Session :=
  { user_id := some 2, user_name := some "Nadia Hassan",
    user_role := some "Nurse" }

/-! ## Theorems -/

/-- C1 (counterexample): the claim that the status observed through the
inventory listing is recomputed from current stock and expiry is false on
the code at a concrete input: the seeded store itself. `get_inventory`
reports the stored column values, so the second medicine (Amoxicillin,
stock 45, expiry 2026-08-31, both far from the thresholds) is listed as
`Low Stock`, while the claim's derivation rule yields `In Stock` for it. -/
theorem inventory_status_not_recomputed_cex :
    (get_inventory (seededStore env0)).map (fun e => e.status) =
      [some "In Stock", some "Low Stock", some "In Stock", some "Reorder"]
    ∧ specDerivedStatus env0.today 45 (some ⟨2026, 8, 31⟩) = "In Stock"
    ∧ (some "Low Stock" : Option String) ≠ some "In Stock" := by
  refine ⟨rfl, rfl, by decide⟩

/-- C1 (amended): `Medicine.status` is a stored column, not derived state.
The inventory listing returns the stored `status` field of every row
unchanged; in particular the reported status is independent of the row's
current `stock_level` and `expiry_date` (and `get_inventory` consults no
current date at all — no `Expired` value is ever computed). -/
theorem inventory_status_is_stored_column :
    (∀ s : Store, (get_inventory s).map (fun e => e.status) =
      s.medicines.map (fun m => m.status))
    ∧ (∀ (m : Medicine) (k : Int) (d : Option HDate),
        (get_inventory { emptyStore with
          medicines := [{ m with stock_level := k, expiry_date := d }] }).map
            (fun e => e.status) = [m.status]) := by
  constructor
  · intro s
    simp [get_inventory]
  · intro m k d
    rfl

/-- C3 (code_bug): an unauthenticated caller of any `@login_required`
route is stopped before the handler runs, but the denial is not the
claimed redirect to a login entry point: `url_for('login')` has no
registered endpoint to resolve to (no view function is named `login`),
so the guard raises `BuildError` and the request fails with a server
error instead of redirecting. -/
theorem login_redirect_target_missing_bug :
    url_for "login" = none
    ∧ (∀ (f : Session → Store → Response × Store) (s : Store),
        login_required f emptySession s = (Response.serverError, s))
    ∧ (∀ loc : String, (Response.serverError : Response) ≠ Response.redirect loc) := by
  refine ⟨by decide, ?_, ?_⟩
  · intro f s
    rfl
  · intro loc h
    exact Response.noConfusion h

/-- C8 (counterexample): the claim says that when the ready flag is
already true the initialization routine returns without acquiring the
lock. On the code the `with _init_lock:` block is unconditional: at the
concrete input (empty store, flag already true) the call still acquires
the lock. -/
theorem no_lock_free_fast_path_cex :
    ((emptyStore, true) : Store × Bool).2 = true
    ∧ (init_database_trace env0 none (emptyStore, true)).2.acquired_lock = true := by
  exact ⟨rfl, rfl⟩

/-- C8 (amended): `initialize_database` is single-checked locking: every
call acquires the lock, the ready flag is checked once inside the
critical section, a true flag means nothing further happens (no seeding,
state unchanged), and a false flag means the create-and-seed sequence
runs and the flag is set true. -/
theorem init_always_acquires_lock_single_check (env : Env)
    (failAt : Option SeedStage) (st : Store × Bool) :
    (init_database_trace env failAt st).2.acquired_lock = true
    ∧ (st.2 = true → init_database env failAt st = st
        ∧ (init_database_trace env failAt st).2.ran_seed = false)
    ∧ (st.2 = false → (init_database_trace env failAt st).2.ran_seed = true
        ∧ (init_database env failAt st).2 = true) := by
  obtain ⟨s, b⟩ := st
  cases b <;> simp [init_database, init_database_trace]

/-- C2 (counterexample): the claim that `dispense_prescription` is denied
for every role other than Admin and Pharmacist is false on the code: the
route carries only `@login_required`, so the seeded Nurse user (id 2,
whose role is in neither of the claimed allowed roles) successfully
dispenses prescription 1 of the seeded store. -/
theorem nurse_can_dispense_cex :
    (seededStore env0).users.find? (fun v => v.id == 2) =
      some (set_password env0
        { id := 2, name := "Nadia Hassan", email := "n.hassan@healthsys.demo",
          password_hash := "", role := "Nurse" } "password")
    ∧ ("Nurse" ≠ "Admin" ∧ "Nurse" ≠ "Pharmacist")
    ∧ (dispense_prescription nurseSession 1 (seededStore env0)).1 =
        Response.json "Prescription dispensed successfully" 200 := by
  refine ⟨by decide, ⟨by decide, by decide⟩, by decide⟩

/-- C2 (amended): there is no permission-to-roles map in the code. The
authorization that exists is: `dispense_prescription` is gated only by
authentication, so every authenticated session reaches the handler
regardless of its role; and the (otherwise unused) `role_required(r)`
decorator admits an authenticated user exactly when the user row looked
up from the session exists and its role equals `r`, denying with a 403
when the row is missing (fail-closed) or the role differs. -/
theorem dispense_open_to_all_roles_and_role_gate_exact :
    (∀ (sess : Session) (s : Store) (pid uid : Nat),
        sess.user_id = some uid →
        dispense_prescription sess pid s = dispenseHandler pid s)
    ∧ (∀ (r : String) (f : Session → Store → Response × Store)
        (sess : Session) (s : Store) (uid : Nat),
        sess.user_id = some uid →
        (s.users.find? (fun v => v.id == uid) = none →
          role_required r f sess s = (Response.json "Unauthorized access" 403, s))
        ∧ (∀ u, s.users.find? (fun v => v.id == uid) = some u →
            (u.role = r → role_required r f sess s = f sess s)
            ∧ (u.role ≠ r → role_required r f sess s =
                (Response.json "Unauthorized access" 403, s)))) := by
  constructor
  · intro sess s pid uid h
    simp [dispense_prescription, login_required, h]
  · intro r f sess s uid h
    refine ⟨?_, ?_⟩
    · intro hn
      simp [role_required, h, hn]
    · intro u hu
      refine ⟨?_, ?_⟩
      · intro hr
        simp [role_required, h, hu, hr]
      · intro hr
        simp [role_required, h, hu, hr]

/-- C4 (counterexample): seeding is not all-or-nothing and failure does
not keep the gate un-ready. At the concrete input (fresh store, failure
raised while committing the consultations batch) the store is left
changed — the users, patients and medicines batches committed before the
failure persist — and `_is_initialized` is still set true, so no later
call retries. -/
theorem seed_failure_not_atomic_cex :
    (init_database env0 (some SeedStage.consultationsStage)
      (emptyStore, false)).1 ≠ emptyStore
    ∧ (init_database env0 (some SeedStage.consultationsStage)
        (emptyStore, false)).2 = true := by
  refine ⟨by decide, rfl⟩

/-- C4 (amended): when a seed batch's commit raises, only that batch's
pending rows are rolled back: every batch committed before it persists.
The error is swallowed inside `seed_initial_data`, so `initialize_database`
still sets the ready flag true, and a later call to the routine is a
no-op — the failed seeding is never retried. -/
theorem seed_failure_partial_commits_and_no_retry (env : Env)
    (stage : SeedStage) :
    (init_database env (some stage) (emptyStore, false)).2 = true
    ∧ ensure_ready env none (init_database env (some stage) (emptyStore, false)) =
        init_database env (some stage) (emptyStore, false)
    ∧ (init_database env (some stage) (emptyStore, false)).1 =
        { users := if 0 < stageRank (some stage) then seedUserRows env 1 else [],
          patients := if 1 < stageRank (some stage) then seedPatientRows 1 else [],
          medicines := if 2 < stageRank (some stage) then seedMedicineRows 1 else [],
          consultations := if 3 < stageRank (some stage) then
            seedConsultationRows env 1 1 1 else [],
          prescriptions := [] } := by
  cases stage <;> exact ⟨rfl, rfl, rfl⟩

/-- C9: seeding an empty store inserts exactly 5 users whose role list is
Doctor, Nurse, Doctor, Pharmacist, Admin (one per role with Doctor
twice), 4 patients, 4 medicines, 3 consultations and 3 prescriptions,
and every seeded consultation's `patient_id` and `doctor_id` resolve to a
just-seeded patient and user row. -/
theorem seed_contents_counts_and_fks (env : Env) :
    (seededStore env).users.length = 5
    ∧ (seededStore env).users.map (fun u => u.role) =
        ["Doctor", "Nurse", "Doctor", "Pharmacist", "Admin"]
    ∧ (seededStore env).patients.length = 4
    ∧ (seededStore env).medicines.length = 4
    ∧ (seededStore env).consultations.length = 3
    ∧ (seededStore env).prescriptions.length = 3
    ∧ (seededStore env).consultations.all (fun c =>
        ((seededStore env).patients.map (fun p => p.id)).contains c.patient_id
        && ((seededStore env).users.map (fun u => u.id)).contains c.doctor_id) = true := by
  exact ⟨rfl, rfl, rfl, rfl, rfl, rfl, rfl⟩

/-- Every element of a list of naturals is bounded by its `foldr max 0`. -/
theorem mem_le_foldr_max (x : Nat) (l : List Nat) (h : x ∈ l) :
    x ≤ l.foldr max 0 := by
  induction l with
  | nil => cases h
  | cons a t ih =>
    rcases List.mem_cons.mp h with rfl | ht
    · exact le_max_left x (t.foldr max 0)
    · exact le_trans (ih ht) (le_max_right a (t.foldr max 0))

/-- An id already present in a table is strictly below the next
autoincrement id. -/
theorem mem_lt_nextId (x : Nat) (l : List Nat) (h : x ∈ l) : x < nextId l :=
  Nat.lt_succ_of_le (mem_le_foldr_max x l h)

/-- The prescription-insertion loop of `add_consultation` preserves the
dispensed flag of every existing prescription with a given id: each new
row receives a fresh autoincrement id, so it can never shadow an
existing id. -/
theorem addPrescriptionRows_keeps_dispensed (cid : Nat)
    (rows : List PrescriptionInput) (s : Store) (d : Nat)
    (hex : ∃ q, q ∈ s.prescriptions ∧ q.id = d)
    (hall : ∀ q, q ∈ s.prescriptions → q.id = d → q.dispensed = true) :
    ∀ q, q ∈ (addPrescriptionRows cid rows s).prescriptions → q.id = d →
      q.dispensed = true := by
  induction rows generalizing s with
  | nil => exact hall
  | cons r rest ih =>
    simp only [addPrescriptionRows, List.foldl] at *
    apply ih
    · obtain ⟨q, hq, hid⟩ := hex
      exact ⟨q, List.mem_append_left _ hq, hid⟩
    · intro q hq hid
      rcases List.mem_append.mp hq with hl | hr
      · exact hall q hl hid
      · exfalso
        have hq1 : q.id = nextId (s.prescriptions.map (fun p => p.id)) := by
          rcases List.mem_singleton.mp hr with rfl
          rfl
        obtain ⟨q0, hq0, hid0⟩ := hex
        have hlt : q0.id < nextId (s.prescriptions.map (fun p => p.id)) :=
          mem_lt_nextId _ _ (List.mem_map_of_mem _ hq0)
        omega

/-- Every prescription row seeded by `seed_initial_data` carries an id at
or above the prescription table's autoincrement base. -/
theorem seedPrescriptionRows_id_ge (rb cb mb : Nat) (q : Prescription)
    (h : q ∈ seedPrescriptionRows rb cb mb) : rb ≤ q.id := by
  rcases List.mem_cons.mp h with rfl | h
  · exact Nat.le_refl rb
  rcases List.mem_cons.mp h with rfl | h
  · exact Nat.le_add_right rb 1
  rcases List.mem_cons.mp h with rfl | h
  · exact Nat.le_add_right rb 2
  cases h

/-- The already-dispensed branch of the dispense handler: a resolvable id
whose row is already dispensed yields the 400 conflict response and an
unchanged store. -/
theorem dispenseHandler_already (pid : Nat) (st : Store) (q : Prescription)
    (hf : findPrescription st pid = some q) (hd : q.dispensed = true) :
    dispenseHandler pid st =
      (Response.json "Prescription already dispensed" 400, st) := by
  simp [dispenseHandler, hf, hd]

/-- The dispense handler's row update preserves a true dispensed flag of
every row (it only ever sets the flag to true). -/
theorem dispenseHandler_keeps_dispensed (pid : Nat) (s : Store) (d : Nat)
    (hall : ∀ q, q ∈ s.prescriptions → q.id = d → q.dispensed = true) :
    ∀ q, q ∈ (dispenseHandler pid s).2.prescriptions → q.id = d →
      q.dispensed = true := by
  unfold dispenseHandler
  cases hf : findPrescription s pid with
  | none => exact hall
  | some p =>
    by_cases hp : p.dispensed
    · simp only [hp, if_true]
      exact hall
    · simp only [hp, if_false]
      intro q hq hid
      rcases List.mem_map.mp hq with ⟨q0, hq0, hq0eq⟩
      by_cases hcase : q0.id == pid
      · rw [if_pos hcase] at hq0eq
        rw [← hq0eq]
      · rw [if_neg hcase] at hq0eq
        exact hall q (hq0eq ▸ hq0) hid

/-- C5: dispensing transitions the flag from false to true exactly once.
For a prescription that exists and is not yet dispensed: the first call
succeeds with a 200 and afterwards every row with that id is dispensed;
the second call on the resulting store returns the 400
`Prescription already dispensed` client error naming the conflict and
leaves the whole store (flag, and all linked tables) unchanged; and no
operation of the application ever turns a dispensed flag from true back
to false. -/
theorem dispense_transitions_once_and_conflicts (s : Store) (pid : Nat)
    (p : Prescription) (hfind : findPrescription s pid = some p)
    (hnd : p.dispensed = false) :
    (dispenseHandler pid s).1 =
      Response.json "Prescription dispensed successfully" 200
    ∧ (∀ q, q ∈ (dispenseHandler pid s).2.prescriptions → q.id = pid →
        q.dispensed = true)
    ∧ dispenseHandler pid (dispenseHandler pid s).2 =
        (Response.json "Prescription already dispensed" 400,
         (dispenseHandler pid s).2)
    ∧ (∀ (op : AppOp) (s2 : Store) (d : Nat),
        (∃ q, q ∈ s2.prescriptions ∧ q.id = d) →
        (∀ q, q ∈ s2.prescriptions → q.id = d → q.dispensed = true) →
        ∀ q, q ∈ (applyOp op s2).prescriptions → q.id = d →
          q.dispensed = true) := by
  have hfind' : List.find? (fun q => q.id == pid) s.prescriptions = some p :=
    hfind
  have hpid : (p.id == pid) = true :=
    @List.find?_some Prescription (fun q => q.id == pid) p s.prescriptions hfind'
  have hres : dispenseHandler pid s =
      (Response.json "Prescription dispensed successfully" 200,
       { s with prescriptions := s.prescriptions.map (fun q =>
           if q.id == pid then { q with dispensed := true } else q) }) := by
    simp [dispenseHandler, hfind, hnd]
  have hmem : ∀ q, q ∈ (dispenseHandler pid s).2.prescriptions → q.id = pid →
      q.dispensed = true := by
    rw [hres]
    intro q hq hid
    rcases List.mem_map.mp hq with ⟨q0, _, hq0eq⟩
    by_cases hcase : (q0.id == pid) = true
    · rw [if_pos hcase] at hq0eq
      rw [← hq0eq]
    · rw [if_neg hcase] at hq0eq
      exfalso
      exact absurd (beq_iff_eq.mpr (hq0eq ▸ hid)) (by simpa using hcase)
  refine ⟨by rw [hres], hmem, ?_, ?_⟩
  · -- the second call hits the already-dispensed branch
    have hp' : findPrescription (dispenseHandler pid s).2 pid =
        some { p with dispensed := true } := by
      rw [hres]
      show List.find? (fun q => q.id == pid)
          (s.prescriptions.map (fun q =>
            if q.id == pid then { q with dispensed := true } else q)) =
        some { p with dispensed := true }
      rw [List.find?_map]
      have hfun : ((fun q : Prescription => q.id == pid) ∘
          (fun q : Prescription =>
            if q.id == pid then { q with dispensed := true } else q)) =
          fun q : Prescription => q.id == pid := by
        funext q
        by_cases hcase : (q.id == pid) = true
        · simp [Function.comp, hcase]
        · simp [Function.comp, hcase]
      rw [hfun, hfind']
      show some (if (p.id == pid) = true then
          ({ p with dispensed := true } : Prescription) else p) =
        some { p with dispensed := true }
      rw [if_pos hpid]
    exact dispenseHandler_already pid (dispenseHandler pid s).2
      { p with dispensed := true } hp' rfl
  · intro op s2 d hex hall q hq hid
    cases op with
    | addPatientOp dd => exact hall q hq hid
    | updatePatientOp pid2 dd => exact hall q hq hid
    | updateConsultationOp cid2 dd => exact hall q hq hid
    | dispenseOp pid2 => exact dispenseHandler_keeps_dispensed pid2 s2 d hall q hq hid
    | addConsultationOp dd =>
      have := addPrescriptionRows_keeps_dispensed
        (nextId (s2.consultations.map (fun c => c.id))) dd.prescriptions
        { s2 with consultations := s2.consultations ++
            [{ id := nextId (s2.consultations.map (fun c => c.id)),
               consultation_date := dd.consultation_date,
               diagnosis := dd.diagnosis, notes := dd.notes,
               patient_id := dd.patient_id, doctor_id := dd.doctor_id }] }
        d hex hall
      exact this q hq hid
    | ensureReadyOp env failAt flag =>
      cases flag with
      | true => exact hall q hq hid
      | false =>
        have hstep : applyOp (AppOp.ensureReadyOp env failAt false) s2 =
            seed_initial_data env failAt s2 := rfl
        rw [hstep] at hq
        by_cases hu : s2.users.isEmpty
        · simp only [seed_initial_data, hu, if_true] at hq
          rcases List.mem_append.mp hq with hl | hr
          · exact hall q hl hid
          · by_cases h4 : 4 < stageRank failAt
            · rw [if_pos h4] at hr
              obtain ⟨q0, hq0, hid0⟩ := hex
              have hlt : q0.id < nextId (s2.prescriptions.map (fun z => z.id)) :=
                mem_lt_nextId _ _ (List.mem_map_of_mem _ hq0)
              have hge := seedPrescriptionRows_id_ge _ _ _ q hr
              omega
            · rw [if_neg h4] at hr
              cases hr
        · simp only [seed_initial_data, hu, if_false] at hq
          exact hall q hq hid

/-- Witness for C5 at a concrete input: prescription 1 of the seeded
store exists and is not yet dispensed, and the dispense-once conclusions
hold there. -/
theorem dispense_transitions_once_witness :
    findPrescription (seededStore env0) 1 = some
      { id := 1, medication := "Lisinopril 10mg", dosage := "1 tablet daily",
        instructions := some "Take in the morning.", dispensed := false,
        consultation_id := 1, medicine_id := none }
    ∧ ((dispenseHandler 1 (seededStore env0)).1 =
        Response.json "Prescription dispensed successfully" 200
      ∧ (∀ q, q ∈ (dispenseHandler 1 (seededStore env0)).2.prescriptions →
          q.id = 1 → q.dispensed = true)
      ∧ dispenseHandler 1 (dispenseHandler 1 (seededStore env0)).2 =
          (Response.json "Prescription already dispensed" 400,
           (dispenseHandler 1 (seededStore env0)).2)
      ∧ (∀ (op : AppOp) (s2 : Store) (d : Nat),
          (∃ q, q ∈ s2.prescriptions ∧ q.id = d) →
          (∀ q, q ∈ s2.prescriptions → q.id = d → q.dispensed = true) →
          ∀ q, q ∈ (applyOp op s2).prescriptions → q.id = d →
            q.dispensed = true)) :=
  ⟨rfl, dispense_transitions_once_and_conflicts (seededStore env0) 1
    { id := 1, medication := "Lisinopril 10mg", dosage := "1 tablet daily",
      instructions := some "Take in the morning.", dispensed := false,
      consultation_id := 1, medicine_id := none } rfl rfl⟩

/-- With a non-empty user table, one `ensure_ready` call leaves the store
exactly as it is and only sets the process flag true. -/
theorem ensure_ready_fixed (env : Env) (failAt : Option SeedStage) (s : Store)
    (h : s.users ≠ []) (b : Bool) :
    ensure_ready env failAt (s, b) = (s, true) := by
  cases b with
  | true => rfl
  | false =>
    have hne : s.users.isEmpty = false := by
      cases hu : s.users with
      | nil => exact absurd hu h
      | cons a t => rfl
    have hseed : seed_initial_data env failAt s = s := by
      simp [seed_initial_data, hne]
    show (seed_initial_data env failAt s, true) = (s, true)
    rw [hseed]

/-- C6: calling `ensure_ready` on a store that already contains seed data
(a non-empty user table, which is exactly the code's own existence check
`User.query.first() is None`) inserts no rows: repeating the call any
number of times, from either flag state and under any seed-failure
injection, leaves the contents of every table unchanged. -/
theorem ensure_ready_idempotent_on_seeded_store (env : Env)
    (failAt : Option SeedStage) (s : Store) (b : Bool)
    (h : s.users ≠ []) (n : Nat) :
    (iterEnsure env failAt n (s, b)).1 = s := by
  induction n generalizing b with
  | zero => rfl
  | succ k ih =>
    show (iterEnsure env failAt k (ensure_ready env failAt (s, b))).1 = s
    rw [ensure_ready_fixed env failAt s h b]
    exact ih true

/-- Witness for C6 at a concrete input: the seeded store has users, and
three repeated `ensure_ready` calls leave it unchanged. -/
theorem ensure_ready_idempotent_witness :
    (seededStore env0).users ≠ []
    ∧ (iterEnsure env0 none 3 (seededStore env0, false)).1 = seededStore env0 :=
  ⟨by decide, ensure_ready_idempotent_on_seeded_store env0 none
    (seededStore env0) false (by decide) 3⟩

/-- The invariant holds in the initial racing state. -/
theorem concInv_init (env : Env) (n : Nat) : ConcInv env (initConc n) := by
  refine ⟨?_, ?_, ?_, ?_, ?_, ?_⟩
  · intro h
    exact Bool.noConfusion h
  · intro _
    exact ⟨rfl, rfl⟩
  · intro j hj
    exact TPC.noConfusion hj
  · intro j hj
    rcases hj with hj | hj | hj <;> exact TPC.noConfusion hj
  · intro j hj
    exact TPC.noConfusion hj
  · intro j hj
    exact TPC.noConfusion hj

/-- Every scheduler step preserves the invariant of the initialization
gate: mutual exclusion of the critical section, at most one executed
seed body, and a store that is exactly `emptyStore` before the flag is
set and exactly the seeded store afterwards. -/
theorem concInv_step (env : Env) {n : Nat} (g : ConcState n) (i : Fin n)
    (h : ConcInv env g) : ConcInv env (step env g i) := by
  obtain ⟨h1, h2, h3, h4, h5, h6⟩ := h
  unfold step
  cases hpc : g.pcs i with
  | entry =>
    cases hlh : g.lockHolder with
    | none =>
      refine ⟨h1, h2, ?_, ?_, ?_, ?_⟩
      · intro j hj
        by_cases hji : j = i
        · subst hji
          simp [setPC] at hj
        · exact h3 j (by simpa [setPC, hji] using hj)
      · intro j hj
        by_cases hji : j = i
        · subst hji
          rfl
        · have hcrit : g.pcs j = TPC.locked ∨ g.pcs j = TPC.working ∨
              g.pcs j = TPC.unlocking := by
            simpa [setPC, hji] using hj
          have := h4 j hcrit
          rw [hlh] at this
          exact Option.noConfusion this
      · intro j hj
        by_cases hji : j = i
        · subst hji
          simp [setPC] at hj
        · exact h5 j (by simpa [setPC, hji] using hj)
      · intro j hj
        by_cases hji : j = i
        · subst hji
          simp [setPC] at hj
        · exact h6 j (by simpa [setPC, hji] using hj)
    | some k => exact ⟨h1, h2, h3, h4, h5, h6⟩
  | locked =>
    by_cases hf : g.flag = true
    · rw [if_pos hf]
      refine ⟨h1, h2, ?_, ?_, ?_, ?_⟩
      · intro j hj
        by_cases hji : j = i
        · subst hji
          simp [setPC] at hj
        · exact h3 j (by simpa [setPC, hji] using hj)
      · intro j hj
        by_cases hji : j = i
        · rw [hji]
          exact h4 i (Or.inl hpc)
        · exact h4 j (by simpa [setPC, hji] using hj)
      · intro j hj
        by_cases hji : j = i
        · exact hf
        · exact h5 j (by simpa [setPC, hji] using hj)
      · intro j hj
        by_cases hji : j = i
        · subst hji
          simp [setPC] at hj
        · exact h6 j (by simpa [setPC, hji] using hj)
    · rw [if_neg hf]
      refine ⟨h1, h2, ?_, ?_, ?_, ?_⟩
      · intro j hj
        exact Bool.eq_false_iff.mpr fun hc => hf hc
      · intro j hj
        by_cases hji : j = i
        · rw [hji]
          exact h4 i (Or.inl hpc)
        · exact h4 j (by simpa [setPC, hji] using hj)
      · intro j hj
        by_cases hji : j = i
        · subst hji
          simp [setPC] at hj
        · exact h5 j (by simpa [setPC, hji] using hj)
      · intro j hj
        by_cases hji : j = i
        · subst hji
          simp [setPC] at hj
        · exact h6 j (by simpa [setPC, hji] using hj)
  | working =>
    have hflag : g.flag = false := h3 i hpc
    obtain ⟨hstore, hruns⟩ := h2 hflag
    refine ⟨?_, ?_, ?_, ?_, ?_, ?_⟩
    · intro _
      constructor
      · show seed_initial_data env none g.store = seededStore env
        rw [hstore]
        rfl
      · show g.seedRuns + 1 = 1
        rw [hruns]
    · intro hc
      exact Bool.noConfusion hc
    · intro j hj
      by_cases hji : j = i
      · subst hji
        simp [setPC] at hj
      · have hjold : g.pcs j = TPC.working := by simpa [setPC, hji] using hj
        have e1 := h4 j (Or.inr (Or.inl hjold))
        have e2 := h4 i (Or.inr (Or.inl hpc))
        exact absurd (Option.some.inj (e1.symm.trans e2)) hji
    · intro j hj
      by_cases hji : j = i
      · rw [hji]
        exact h4 i (Or.inr (Or.inl hpc))
      · exact h4 j (by simpa [setPC, hji] using hj)
    · intro j hj
      rfl
    · intro j hj
      rfl
  | unlocking =>
    have hflag : g.flag = true := h5 i hpc
    refine ⟨h1, ?_, ?_, ?_, ?_, ?_⟩
    · intro hc
      rw [hflag] at hc
      exact Bool.noConfusion hc
    · intro j hj
      by_cases hji : j = i
      · subst hji
        simp [setPC] at hj
      · exact h3 j (by simpa [setPC, hji] using hj)
    · intro j hj
      by_cases hji : j = i
      · subst hji
        simp [setPC] at hj
      · have hcrit : g.pcs j = TPC.locked ∨ g.pcs j = TPC.working ∨
            g.pcs j = TPC.unlocking := by
          simpa [setPC, hji] using hj
        have e1 := h4 j hcrit
        have e2 := h4 i (Or.inr (Or.inr hpc))
        exact absurd (Option.some.inj (e1.symm.trans e2)) hji
    · intro j hj
      by_cases hji : j = i
      · subst hji
        simp [setPC] at hj
      · exact h5 j (by simpa [setPC, hji] using hj)
    · intro j hj
      by_cases hji : j = i
      · exact hflag
      · exact h6 j (by simpa [setPC, hji] using hj)
  | finished => exact ⟨h1, h2, h3, h4, h5, h6⟩

/-- The invariant is preserved by every schedule. -/
theorem concInv_run (env : Env) {n : Nat} (g : ConcState n)
    (h : ConcInv env g) (sch : List (Fin n)) :
    ConcInv env (runSched env g sch) := by
  induction sch generalizing g with
  | nil => exact h
  | cons i rest ih => exact ih (step env g i) (concInv_step env g i h)

/-- C7: for `N` threads making concurrent first calls to the
initialization gate on an unseeded store, under every schedule at most
one create-and-seed body executes; and under every schedule in which all
`N` calls have returned, exactly one seed body executed, the flag is
set, and the store every caller observes from then on is the fully
seeded store. (All shared accesses in the source occur while holding
`_init_lock`, which the step relation models faithfully.) -/
theorem concurrent_init_seeds_exactly_once (env : Env) (n : Nat)
    (sch : List (Fin n)) (hn : 0 < n)
    (hfin : ∀ i, (runSched env (initConc n) sch).pcs i = TPC.finished) :
    (runSched env (initConc n) sch).seedRuns = 1
    ∧ (runSched env (initConc n) sch).store = seededStore env
    ∧ (runSched env (initConc n) sch).flag = true
    ∧ (∀ sch2 : List (Fin n), (runSched env (initConc n) sch2).seedRuns ≤ 1) := by
  obtain ⟨h1, h2, h3, h4, h5, h6⟩ :=
    concInv_run env (initConc n) (concInv_init env n) sch
  have hflag : (runSched env (initConc n) sch).flag = true :=
    h6 ⟨0, hn⟩ (hfin ⟨0, hn⟩)
  obtain ⟨hstore, hruns⟩ := h1 hflag
  refine ⟨hruns, hstore, hflag, ?_⟩
  intro sch2
  obtain ⟨g1, g2, _, _, _, _⟩ :=
    concInv_run env (initConc n) (concInv_init env n) sch2
  cases hf2 : (runSched env (initConc n) sch2).flag with
  | true => exact le_of_eq (g1 hf2).2
  | false => exact le_trans (le_of_eq (g2 hf2).2) (Nat.zero_le 1)

/-- Witness for C7 at a concrete input: two threads, a schedule in which
thread 0 performs the whole seeding while thread 1 then passes through
the critical section, and the conclusions evaluated there. -/
theorem concurrent_init_seeds_once_witness :
    (0 < 2 ∧ ∀ i : Fin 2, (runSched env0 (initConc 2)
        [0, 0, 0, 0, 1, 1, 1]).pcs i = TPC.finished)
    ∧ ((runSched env0 (initConc 2) [0, 0, 0, 0, 1, 1, 1]).seedRuns = 1
      ∧ (runSched env0 (initConc 2) [0, 0, 0, 0, 1, 1, 1]).store = seededStore env0
      ∧ (runSched env0 (initConc 2) [0, 0, 0, 0, 1, 1, 1]).flag = true
      ∧ (∀ sch2 : List (Fin 2), (runSched env0 (initConc 2) sch2).seedRuns ≤ 1)) :=
  ⟨⟨by decide, by decide⟩,
   concurrent_init_seeds_exactly_once env0 2 [0, 0, 0, 0, 1, 1, 1]
     (by decide) (by decide)⟩

/-- C10: for any process hash function, `check_password(q)` after
`set_password(p)` succeeds exactly when `str(hash(q + "demo_salt"))`
equals `str(hash(p + "demo_salt"))` — in particular `check_password(p)`
succeeds — and `api_login` establishes a session (storing id, name and
role) exactly when a user with the submitted email exists and this check
succeeds for the submitted password, leaving the session unchanged with
a 401 otherwise. -/
theorem password_roundtrip_and_login_session (env : Env) (u : User)
    (p q : String) (s : Store) (sess : Session) (email pw : String) :
    (check_password env (set_password env u p) q = true ↔
      toString (env.pyHash (q ++ "demo_salt")) =
        toString (env.pyHash (p ++ "demo_salt")))
    ∧ check_password env (set_password env u p) p = true
    ∧ (∀ user, s.users.find? (fun v => v.email == email) = some user →
        check_password env user pw = true →
        api_login env s sess email pw =
          (Response.json "Login successful" 200,
           { user_id := some user.id, user_name := some user.name,
             user_role := some user.role }))
    ∧ (∀ user, s.users.find? (fun v => v.email == email) = some user →
        check_password env user pw = false →
        api_login env s sess email pw =
          (Response.json "Invalid email or password" 401, sess))
    ∧ (s.users.find? (fun v => v.email == email) = none →
        api_login env s sess email pw =
          (Response.json "Invalid email or password" 401, sess)) := by
  refine ⟨?_, ?_, ?_, ?_, ?_⟩
  · constructor
    · intro h
      exact (beq_iff_eq.mp (by simpa [check_password, set_password] using h)).symm
    · intro h
      simp [check_password, set_password, h]
  · simp [check_password, set_password]
  · intro user hfind hck
    simp [api_login, hfind, hck]
  · intro user hfind hck
    simp [api_login, hfind, hck]
  · intro hnone
    simp [api_login, hnone]

end HealthSys

